import Mathlib

/-!
Shallow embedding of the Go CPU-scheduling simulator in `src/Project1/main.go`
(package `main` of MelvinTowo/Process-scheduler-in-GO).

Modelling conventions:
* Go `int64` values are modelled as `Int`.  None of the inputs considered here
  comes near the `int64` range, and no claim depends on wrap-around, so the
  unbounded model is faithful for every statement proved below.
* Go `float64` accumulators (`totalWait`, `totalTurnaround`, `lastCompletion`)
  only ever hold exact integer values (they accumulate `float64(int64)` casts),
  so they are modelled as `Int`.  The final `float64` divisions that produce the
  averages and the throughput are modelled exactly in `ℚ` by `fdiv`; `fdiv`
  returns `none` where Go division by zero would produce `NaN` or `±Inf`.
* The schedule table rows are `[][]string` in Go, each cell produced by
  `fmt.Sprint` of an `int64` or of an integer-valued `float64`.  Decimal
  rendering of integers is injective and agrees between the two types, so a row
  is modelled as `List Int` in the same cell order as the source.
* The unbounded `for` loops of `SJFPrioritySchedule` and `RRSchedule` are
  modelled with an explicit fuel parameter: `none` means the loop has not
  exited within `fuel` iterations.  The loop body, guard and exit value are
  translated verbatim from the source.
-/

/-- Go struct `Process` (main.go lines 64-69): fields `ProcessID`,
`ArrivalTime`, `BurstDuration`, `Priority`, all `int64`. -/
structure Process where
  ProcessID : Int
  ArrivalTime : Int
  BurstDuration : Int
  Priority : Int
deriving DecidableEq, Repr

/-- Go struct `TimeSlice` (main.go lines 70-74): one Gantt-chart slice. -/
structure TimeSlice where
  PID : Int
  Start : Int
  Stop : Int
deriving DecidableEq, Repr

/-- A schedule-table row.  Go builds `[]string` rows by `fmt.Sprint`; decimal
rendering of integers is injective, so the row is modelled by the rendered
integers in source order. -/
abbrev Row := List Int

/-- Go `containsPID` (main.go lines 379-386): a row matches when its first cell
equals the decimal rendering of `pid`; `strconv.FormatInt` is injective, so
string equality of cell 0 is integer equality. -/
def containsPID (schedule : List Row) (pid : Int) : Bool :=
  schedule.any fun row => row.head? == some pid

/-- Go `lastArrivalTime` (main.go lines 387-395). -/
def lastArrivalTime (processes : List Process) : Int :=
  processes.foldl (fun lastArrival p =>
    if p.ArrivalTime > lastArrival then p.ArrivalTime else lastArrival) 0

/-- Go `float64` division `x / y`, exact in `ℚ`; `none` stands for the `NaN`
or `±Inf` that Go produces when `y = 0`. -/
def fdiv (x y : ℚ) : Option ℚ := if y = 0 then none else some (x / y)

/-- The structured data each scheduler hands to the presentation layer:
the schedule-table rows, the Gantt trace, and the three footer metrics. -/
structure ScheduleOutput where
  schedule : List Row
  gantt : List TimeSlice
  aveWait : Option ℚ
  aveTurnaround : Option ℚ
  throughput : Option ℚ
deriving DecidableEq, Repr

/-! ### FCFS and SJF (main.go lines 83-133 and 231-289)

The two loop bodies are textually identical in the source (SJF first sorts the
slice in place, then runs the same per-process computation), so they share one
step function here. -/

/-- The local variables of `FCFSSchedule` / `SJFSchedule` that live across loop
iterations.  Note that `waitingTime` is a single variable that persists between
iterations and is only reassigned when `ArrivalTime > 0` (main.go line 94). -/
structure FCFSState where
  serviceTime : Int
  totalWait : Int
  totalTurnaround : Int
  lastCompletion : Int
  waitingTime : Int
  schedule : List Row
  gantt : List TimeSlice
deriving DecidableEq, Repr

def fcfsInit : FCFSState := ⟨0, 0, 0, 0, 0, [], []⟩

/-- One iteration of the FCFS/SJF loop body (main.go lines 93-123). -/
def fcfsStep (s : FCFSState) (p : Process) : FCFSState :=
  let waitingTime := if p.ArrivalTime > 0 then s.serviceTime - p.ArrivalTime else s.waitingTime
  let totalWait := s.totalWait + waitingTime
  let start := waitingTime + p.ArrivalTime
  let turnaround := p.BurstDuration + waitingTime
  let totalTurnaround := s.totalTurnaround + turnaround
  let completion := p.BurstDuration + p.ArrivalTime + waitingTime
  let row : Row :=
    [p.ProcessID, p.Priority, p.BurstDuration, p.ArrivalTime, waitingTime, turnaround, completion]
  let serviceTime := s.serviceTime + p.BurstDuration
  { serviceTime := serviceTime
    totalWait := totalWait
    totalTurnaround := totalTurnaround
    lastCompletion := completion
    waitingTime := waitingTime
    schedule := s.schedule ++ [row]
    gantt := s.gantt ++ [⟨p.ProcessID, start, serviceTime⟩] }

/-- The summary lines of `FCFSSchedule`/`SJFSchedule` (main.go lines 125-128). -/
def fcfsOutput (processes : List Process) (s : FCFSState) : ScheduleOutput :=
  { schedule := s.schedule
    gantt := s.gantt
    aveWait := fdiv s.totalWait processes.length
    aveTurnaround := fdiv s.totalTurnaround processes.length
    throughput := fdiv processes.length s.lastCompletion }

/-- Go `FCFSSchedule` (main.go lines 83-133), with the `io.Writer` rendering
dropped: the structured values handed to the output helpers. -/
def FCFSSchedule (processes : List Process) : ScheduleOutput :=
  fcfsOutput processes (processes.foldl fcfsStep fcfsInit)

/-- Insertion of a process into a burst-sorted list, ascending by
`BurstDuration`. -/
def insertByBurst (p : Process) : List Process → List Process
  | [] => [p]
  | q :: qs =>
      if p.BurstDuration ≤ q.BurstDuration then p :: q :: qs else q :: insertByBurst p qs

/-- The `sort.Slice(processes, ...)` call of `SJFSchedule` (main.go lines
242-245), sorting ascending by `BurstDuration`.  Go's `sort.Slice` is
unstable, so the order of equal-burst processes is unspecified there; on lists
whose bursts are pairwise distinct (the only ones evaluated in the theorems
below) every sort produces this same list. -/
def sortByBurst : List Process → List Process
  | [] => []
  | p :: ps => insertByBurst p (sortByBurst ps)

/-- Go `SJFSchedule` (main.go lines 231-289).  `sort.Slice` reorders the
caller's slice in place, so besides the rendered output the function's effect
includes the new contents of the shared slice: the second component is what the
caller's `processes` slice holds after the call returns. -/
def SJFSchedule (processes : List Process) : ScheduleOutput × List Process :=
  let sorted := sortByBurst processes
  (fcfsOutput sorted (sorted.foldl fcfsStep fcfsInit), sorted)

/-! ### The tick simulations: `SJFPrioritySchedule` and `RRSchedule`

Both functions share the same local-variable layout (main.go lines 135-144 and
293-303) and the same loop guard shape, so they share one state structure. -/

/-- The local variables of `SJFPrioritySchedule` / `RRSchedule` that live
across loop iterations.  `lastCompletion` is declared in both functions; in
`RRSchedule` it is never assigned after its zero initialisation. -/
structure SimState where
  serviceTime : Int
  totalTurnaround : Int
  lastCompletion : Int
  waitingTime : List Int
  remainingTime : List Int
  schedule : List Row
  gantt : List TimeSlice
deriving DecidableEq, Repr

/-- Initial state: zeroed variables, `remainingTime[i] = BurstDuration` of
process `i` (main.go lines 146-149 and 305-308). -/
def simInit (processes : List Process) : SimState :=
  { serviceTime := 0
    totalTurnaround := 0
    lastCompletion := 0
    waitingTime := List.replicate processes.length 0
    remainingTime := processes.map (·.BurstDuration)
    schedule := []
    gantt := [] }

/-- The loop guard shared by both simulations (main.go lines 151 and 311):
`serviceTime < lastArrivalTime(processes) || len(schedule) < len(processes)`. -/
def simGuard (processes : List Process) (s : SimState) : Prop :=
  s.serviceTime < lastArrivalTime processes ∨ s.schedule.length < processes.length

instance (processes : List Process) (s : SimState) : Decidable (simGuard processes s) :=
  inferInstanceAs (Decidable (_ ∨ _))

/-- The zero `Process` value, Go's zero struct, used as the (never-reached)
out-of-range default of list indexing. -/
def pZero : Process := ⟨0, 0, 0, 0⟩

/-- The waiting-time reset loop both simulations run at the end of each
iteration (main.go lines 201-205 and 359-363): for every index whose process
arrives exactly at the current `serviceTime`, still has remaining time, and has
no schedule row yet, `waitingTime[i]` is set to `0`. -/
def resetWaits (processes : List Process) (serviceTime : Int) (remaining : List Int)
    (schedule : List Row) (waiting : List Int) : List Int :=
  (List.range processes.length).foldl (fun w i =>
    let p := processes.getD i pZero
    if p.ArrivalTime = serviceTime ∧ remaining.getD i 0 > 0 ∧
        ¬ containsPID schedule p.ProcessID = true
    then w.set i 0 else w) waiting

/-- The selection scan of `SJFPrioritySchedule` (main.go lines 152-164): a
left-to-right scan for the arrived, unfinished process with the numerically
smallest priority; `Shortest` starts at `math.MaxInt64` and only a strictly
smaller priority replaces the current choice. -/
def selectLoop (processes : List Process) (serviceTime : Int) (remaining : List Int) :
    Option Nat :=
  ((List.range processes.length).foldl (fun acc i =>
    let p := processes.getD i pZero
    if p.ArrivalTime ≤ serviceTime ∧ remaining.getD i 0 > 0 ∧ p.Priority < acc.2
    then (some i, p.Priority) else acc)
    ((none : Option Nat), (9223372036854775807 : Int))).1

/-- One iteration of the `SJFPrioritySchedule` loop body (main.go lines
151-218).  When a process is selected the source records its first-touch
waiting time, appends a schedule row unless one with its PID already exists,
decrements its remaining time (finalising `totalTurnaround` and
`lastCompletion` on completion) and appends a unit Gantt slice — note that the
source never increments `serviceTime` on this branch; `serviceTime++` happens
only when no process is selected.  The re-selection block guarded by
`completed == 1` (lines 207-217) only writes the loop-local `selected` and
`Shortest`, which the next iteration re-initialises, so it has no effect on
this state. -/
def spBody (processes : List Process) (s : SimState) : SimState :=
  let s2 :=
    match selectLoop processes s.serviceTime s.remainingTime with
    | some sel =>
        let p := processes.getD sel pZero
        let wt := if s.waitingTime.getD sel 0 = 0
          then s.serviceTime - p.ArrivalTime else s.waitingTime.getD sel 0
        let waiting := s.waitingTime.set sel wt
        let schedule :=
          if containsPID s.schedule p.ProcessID then s.schedule
          else s.schedule ++
            [[p.ProcessID, p.Priority, p.BurstDuration, p.ArrivalTime, wt,
              s.totalTurnaround + (s.serviceTime - p.ArrivalTime),
              s.totalTurnaround + (s.serviceTime - p.ArrivalTime + p.BurstDuration)]]
        let r := s.remainingTime.getD sel 0
        let gantt := s.gantt ++ [(⟨p.ProcessID, s.serviceTime, s.serviceTime + 1⟩ : TimeSlice)]
        if r > 1 then
          { s with waitingTime := waiting, schedule := schedule,
                   remainingTime := s.remainingTime.set sel (r - 1), gantt := gantt }
        else
          { s with waitingTime := waiting, schedule := schedule,
                   remainingTime := s.remainingTime.set sel 0,
                   totalTurnaround :=
                     s.totalTurnaround + (s.serviceTime - p.ArrivalTime + 1),
                   lastCompletion := s.serviceTime + 1, gantt := gantt }
    | none => { s with serviceTime := s.serviceTime + 1 }
  { s2 with waitingTime :=
      resetWaits processes s2.serviceTime s2.remainingTime s2.schedule s2.waitingTime }

/-- The `SJFPrioritySchedule` loop, run for at most `fuel` iterations:
`some` is the state at normal loop exit, `none` means the guard was still true
when the fuel ran out. -/
def spLoop (processes : List Process) : Nat → SimState → Option SimState
  | 0, s => if simGuard processes s then none else some s
  | fuel + 1, s =>
      if simGuard processes s then spLoop processes fuel (spBody processes s) else some s

/-- The summary lines shared by `SJFPrioritySchedule` (main.go lines 220-223)
and `RRSchedule` (lines 366-369): both compute `averageWait` as
`totalTurnaround / count`. -/
def simOutput (processes : List Process) (s : SimState) : ScheduleOutput :=
  { schedule := s.schedule
    gantt := s.gantt
    aveWait := fdiv s.totalTurnaround processes.length
    aveTurnaround := fdiv s.totalTurnaround processes.length
    throughput := fdiv processes.length s.lastCompletion }

/-- Go `SJFPrioritySchedule` (main.go lines 135-228), with rendering dropped
and the unbounded loop given explicit fuel. -/
def SJFPrioritySchedule (fuel : Nat) (processes : List Process) : Option ScheduleOutput :=
  (spLoop processes fuel (simInit processes)).map (simOutput processes)

/-- One step of the inner scan of `RRSchedule` (main.go lines 315-352) at
index `i`, threading the mutable state and the `completed` flag.  Note the
Gantt slice is appended after `serviceTime` was already advanced, with
`Start = serviceTime - timeQuantum` regardless of how much time the dispatch
actually consumed. -/
def rrScanStep (processes : List Process) (timeQuantum : Int)
    (acc : SimState × Bool) (i : Nat) : SimState × Bool :=
  let s := acc.1
  let p := processes.getD i pZero
  if p.ArrivalTime ≤ s.serviceTime ∧ s.remainingTime.getD i 0 > 0 then
    let wt := if s.waitingTime.getD i 0 = 0
      then s.serviceTime - p.ArrivalTime else s.waitingTime.getD i 0
    let waiting := s.waitingTime.set i wt
    let schedule :=
      if containsPID s.schedule p.ProcessID then s.schedule
      else s.schedule ++
        [[p.ProcessID, p.Priority, p.BurstDuration, p.ArrivalTime,
          s.totalTurnaround, s.totalTurnaround + p.ArrivalTime]]
    let r := s.remainingTime.getD i 0
    if r > timeQuantum then
      let serviceTime := s.serviceTime + timeQuantum
      ({ s with serviceTime := serviceTime, waitingTime := waiting, schedule := schedule,
                remainingTime := s.remainingTime.set i (r - timeQuantum),
                gantt := s.gantt ++ [(⟨p.ProcessID, serviceTime - timeQuantum, serviceTime⟩ : TimeSlice)] },
       acc.2)
    else
      let serviceTime := s.serviceTime + r
      ({ s with serviceTime := serviceTime, waitingTime := waiting, schedule := schedule,
                totalTurnaround := s.totalTurnaround + (serviceTime - p.ArrivalTime),
                remainingTime := s.remainingTime.set i 0,
                gantt := s.gantt ++ [(⟨p.ProcessID, serviceTime - timeQuantum, serviceTime⟩ : TimeSlice)] },
       true)
  else acc

/-- One iteration of the `RRSchedule` loop body (main.go lines 311-364): a full
scan over the processes, then `serviceTime++` when no process completed during
the scan, then the waiting-time reset loop. -/
def rrBody (processes : List Process) (timeQuantum : Int) (s : SimState) : SimState :=
  let scanned := (List.range processes.length).foldl (rrScanStep processes timeQuantum) (s, false)
  let s2 := if scanned.2 then scanned.1
            else { scanned.1 with serviceTime := scanned.1.serviceTime + 1 }
  { s2 with waitingTime :=
      resetWaits processes s2.serviceTime s2.remainingTime s2.schedule s2.waitingTime }

/-- The `RRSchedule` loop (same guard as `spLoop`), run for at most `fuel`
iterations. -/
def rrLoop (processes : List Process) (timeQuantum : Int) : Nat → SimState → Option SimState
  | 0, s => if simGuard processes s then none else some s
  | fuel + 1, s =>
      if simGuard processes s then rrLoop processes timeQuantum fuel (rrBody processes timeQuantum s)
      else some s

/-- Go `RRSchedule` (main.go lines 293-374), with rendering dropped and the
unbounded loop given explicit fuel.  The source contains no validation of
`timeQuantum` and never assigns `lastCompletion`. -/
def RRSchedule (fuel : Nat) (processes : List Process) (timeQuantum : Int) :
    Option ScheduleOutput :=
  (rrLoop processes timeQuantum fuel (simInit processes)).map (simOutput processes)

/-! ### Spec-side predicates

These formalise the words of the specification ("ExecutionIntervals for
distinct processes never overlap in time; intervals are ordered non-decreasing
by start time", spec.md section 8) so claims can be stated against the
schedulers' Gantt traces. -/

/-- Two time slices overlap when their interiors intersect. -/
def slicesOverlap (a b : TimeSlice) : Prop := a.Start < b.Stop ∧ b.Start < a.Stop

instance (a b : TimeSlice) : Decidable (slicesOverlap a b) :=
  inferInstanceAs (Decidable (_ ∧ _))

/-- Modelled from the spec: a Gantt trace is well-formed when slices of
distinct processes never overlap and start times are non-decreasing along the
trace. -/
def GanttOK (g : List TimeSlice) : Prop :=
  g.Pairwise fun a b => (a.PID ≠ b.PID → ¬ slicesOverlap a b) ∧ a.Start ≤ b.Start

instance (g : List TimeSlice) : Decidable (GanttOK g) :=
  inferInstanceAs (Decidable (List.Pairwise _ _))

/-! ### The duplicate-PID inputs of claim C10 -/

/-- Two processes sharing `ProcessID = 1`, positive bursts, for
`SJFPrioritySchedule`. -/
def psDupSP : List Process := [⟨1, 0, 1, 1⟩, ⟨1, 0, 1, 2⟩]

/-- Two processes sharing `ProcessID = 1`, positive bursts, for `RRSchedule`. -/
def psDupRR : List Process := [⟨1, 0, 1, 0⟩, ⟨1, 0, 1, 0⟩]

/-! ### Loop lemmas for the non-termination proof

Once both remaining times are zero and a single schedule row exists, each loop
body only increments `serviceTime`, and the guard `len(schedule) <
len(processes)` stays true because `containsPID` deduplicates rows by PID:
the row count is stuck at 1 while the process count is 2. -/

lemma spBody_zeroRem (st tt lc : Int) (w : List Int) (sch : List Row) (g : List TimeSlice) :
    spBody psDupSP ⟨st, tt, lc, w, [0, 0], sch, g⟩ = ⟨st + 1, tt, lc, w, [0, 0], sch, g⟩ := by
  have hr : List.range psDupSP.length = [0, 1] := rfl
  have hr2 : List.range 2 = [0, 1] := rfl
  simp [spBody, selectLoop, resetWaits, psDupSP, pZero, hr, hr2, List.getD]

lemma spLoop_succ_of_guard (processes : List Process) (fuel : Nat) (s : SimState)
    (h : simGuard processes s) :
    spLoop processes (fuel + 1) s = spLoop processes fuel (spBody processes s) := by
  simp [spLoop, h]

lemma spLoop_none_of_zeroRem (fuel : Nat) :
    ∀ st tt lc : Int, ∀ w : List Int, ∀ g : List TimeSlice,
      spLoop psDupSP fuel ⟨st, tt, lc, w, [0, 0], [[1, 1, 1, 0, 0, 0, 1]], g⟩ = none := by
  induction fuel with
  | zero =>
      intro st tt lc w g
      simp [spLoop, simGuard, psDupSP]
  | succ n ih =>
      intro st tt lc w g
      rw [spLoop_succ_of_guard _ _ _ (by simp [simGuard, psDupSP])]
      rw [spBody_zeroRem]
      exact ih (st + 1) tt lc w g

lemma spLoop_psDupSP_none : ∀ fuel : Nat, spLoop psDupSP fuel (simInit psDupSP) = none := by
  intro fuel
  match fuel with
  | 0 => decide
  | 1 => decide
  | (n + 2) =>
      rw [spLoop_succ_of_guard _ _ _ (by decide)]
      rw [show spBody psDupSP (simInit psDupSP) =
        ⟨0, 1, 1, [0, 0], [0, 1], [[1, 1, 1, 0, 0, 0, 1]], [⟨1, 0, 1⟩]⟩ from by decide]
      rw [spLoop_succ_of_guard _ _ _ (by decide)]
      rw [show spBody psDupSP ⟨0, 1, 1, [0, 0], [0, 1], [[1, 1, 1, 0, 0, 0, 1]], [⟨1, 0, 1⟩]⟩ =
        ⟨0, 2, 1, [0, 0], [0, 0], [[1, 1, 1, 0, 0, 0, 1]], [⟨1, 0, 1⟩, ⟨1, 0, 1⟩]⟩ from by decide]
      exact spLoop_none_of_zeroRem n 0 2 1 [0, 0] [⟨1, 0, 1⟩, ⟨1, 0, 1⟩]

lemma rrBody_zeroRem (st tt lc : Int) (w : List Int) (sch : List Row) (g : List TimeSlice) :
    rrBody psDupRR 10 ⟨st, tt, lc, w, [0, 0], sch, g⟩ = ⟨st + 1, tt, lc, w, [0, 0], sch, g⟩ := by
  have hr : List.range psDupRR.length = [0, 1] := rfl
  have hr2 : List.range 2 = [0, 1] := rfl
  simp [rrBody, rrScanStep, resetWaits, psDupRR, pZero, hr, hr2, List.getD]

lemma rrLoop_succ_of_guard (processes : List Process) (timeQuantum : Int) (fuel : Nat)
    (s : SimState) (h : simGuard processes s) :
    rrLoop processes timeQuantum (fuel + 1) s =
      rrLoop processes timeQuantum fuel (rrBody processes timeQuantum s) := by
  simp [rrLoop, h]

lemma rrLoop_none_of_zeroRem (fuel : Nat) :
    ∀ st tt lc : Int, ∀ w : List Int, ∀ g : List TimeSlice,
      rrLoop psDupRR 10 fuel ⟨st, tt, lc, w, [0, 0], [[1, 0, 1, 0, 0, 0]], g⟩ = none := by
  induction fuel with
  | zero =>
      intro st tt lc w g
      simp [rrLoop, simGuard, psDupRR]
  | succ n ih =>
      intro st tt lc w g
      rw [rrLoop_succ_of_guard _ _ _ _ (by simp [simGuard, psDupRR])]
      rw [rrBody_zeroRem]
      exact ih (st + 1) tt lc w g

lemma rrLoop_psDupRR_none : ∀ fuel : Nat, rrLoop psDupRR 10 fuel (simInit psDupRR) = none := by
  intro fuel
  match fuel with
  | 0 => decide
  | (n + 1) =>
      rw [rrLoop_succ_of_guard _ _ _ _ (by decide)]
      rw [show rrBody psDupRR 10 (simInit psDupRR) =
        ⟨2, 3, 0, [0, 1], [0, 0], [[1, 0, 1, 0, 0, 0]], [⟨1, -9, 1⟩, ⟨1, -8, 2⟩]⟩ from by decide]
      exact rrLoop_none_of_zeroRem n 2 3 0 [0, 1] [⟨1, -9, 1⟩, ⟨1, -8, 2⟩]

/-! ### Claim theorems -/

/-- C1: the claim that every `ProcessResult` row of every algorithm satisfies
`turnaroundTime = waitingTime + burstDuration` fails on the code.  For a single
Round-Robin process with burst 7 and quantum 3 the one emitted row is
`[1, 0, 7, 0, 0, 0]`: under the 7-column table header its Wait cell (index 4)
holds the running `totalTurnaround` (0), its Turnaround cell (index 5) holds
`totalTurnaround + ArrivalTime` (0), and the Exit column is missing entirely,
so Turnaround (0) differs from Wait + Burst (0 + 7).  The preemptive-priority
rows break the identity as well: on arrivals [0,1], bursts [5,3], priorities
[2,1] the second row is `[2, 1, 3, 1, 0, 1, 4]`, whose Turnaround cell 1
differs from Wait + Burst = 0 + 3. -/
theorem C1_rr_row_breaks_identity :
    (RRSchedule 2 [⟨1, 0, 7, 0⟩] 3).map (fun o => o.schedule) = some [[1, 0, 7, 0, 0, 0]] ∧
    ¬ ([(1 : Int), 0, 7, 0, 0, 0].getD 5 0 =
        [(1 : Int), 0, 7, 0, 0, 0].getD 4 0 + [(1 : Int), 0, 7, 0, 0, 0].getD 2 0) ∧
    (SJFPrioritySchedule 9 [⟨1, 0, 5, 2⟩, ⟨2, 1, 3, 1⟩]).map (fun o => o.schedule) =
      some [[1, 2, 5, 0, 0, 0, 5], [2, 1, 3, 1, 0, 1, 4]] ∧
    ¬ ([(2 : Int), 1, 3, 1, 0, 1, 4].getD 5 0 =
        [(2 : Int), 1, 3, 1, 0, 1, 4].getD 4 0 + [(2 : Int), 1, 3, 1, 0, 1, 4].getD 2 0) := by
  decide

/-- C2: the summary formulas fail on the code.  On the preemptive-priority
input with arrivals [0,1], bursts [5,3], priorities [2,1], the code's
`averageWait` is `totalTurnaround / n = 1/2`, while the sum of the rows'
waiting cells is 0, so `sum(waitingTime)/n = 0/2 ≠ 1/2`.  And `RRSchedule`
never assigns `lastCompletion`, so its throughput is `n / 0` (`none`, Go's
`+Inf`) even when a process completes. -/
theorem C2_summary_formulas_violated :
    (SJFPrioritySchedule 9 [⟨1, 0, 5, 2⟩, ⟨2, 1, 3, 1⟩]).map (fun o => o.aveWait) =
      some (some (1 / 2 : ℚ)) ∧
    (SJFPrioritySchedule 9 [⟨1, 0, 5, 2⟩, ⟨2, 1, 3, 1⟩]).map
      (fun o => (o.schedule.map (fun r => r.getD 4 0)).sum) = some 0 ∧
    ¬ ((1 / 2 : ℚ) = 0 / 2) ∧
    (RRSchedule 2 [⟨1, 0, 2, 0⟩] 3).map (fun o => o.throughput) = some none := by
  have h : spLoop [⟨1, 0, 5, 2⟩, ⟨2, 1, 3, 1⟩] 9 (simInit [⟨1, 0, 5, 2⟩, ⟨2, 1, 3, 1⟩]) =
      some ⟨1, 1, 1, [0, 0], [0, 2], [[1, 2, 5, 0, 0, 0, 5], [2, 1, 3, 1, 0, 1, 4]],
        [⟨1, 0, 1⟩, ⟨1, 0, 1⟩, ⟨1, 0, 1⟩, ⟨1, 0, 1⟩, ⟨1, 0, 1⟩, ⟨2, 1, 2⟩]⟩ := by decide
  have h2 : rrLoop [⟨1, 0, 2, 0⟩] 3 2 (simInit [⟨1, 0, 2, 0⟩]) =
      some ⟨2, 2, 0, [0], [0], [[1, 0, 2, 0, 0, 0]], [⟨1, -1, 2⟩]⟩ := by decide
  refine ⟨?_, ?_, by norm_num, ?_⟩
  · simp [SJFPrioritySchedule, h, simOutput, fdiv]
  · simp [SJFPrioritySchedule, h, simOutput, List.getD]
  · simp [RRSchedule, h2, simOutput, fdiv]

/-- C3: the claimed tick-by-tick behaviour fails on the code.  On arrivals
[0,1], bursts [5,3], priorities [2,1], the selected branch of
`SJFPrioritySchedule` never increments `serviceTime`, so process 1 runs its
whole burst while `serviceTime` stays 0 (five identical slices `[0,1)`),
process 2 is never considered before process 1 finishes — no preemption at
tick 1 — and after process 2's first unit the loop exits (its guard counts
schedule rows, which are already 2), leaving process 2 unfinished with a
single slice `[1,2)` instead of completing at tick 4. -/
theorem C3_no_preemption_serviceTime_frozen :
    (SJFPrioritySchedule 9 [⟨1, 0, 5, 2⟩, ⟨2, 1, 3, 1⟩]).map (fun o => o.gantt) =
      some [⟨1, 0, 1⟩, ⟨1, 0, 1⟩, ⟨1, 0, 1⟩, ⟨1, 0, 1⟩, ⟨1, 0, 1⟩, ⟨2, 1, 2⟩] := by
  decide

/-- C4: the claimed Round-Robin interval accounting fails on the code.  With
one process of burst 7 and quantum 3 the loop exits after a single dispatch
(the guard `len(schedule) < len(processes)` is already false once every
process has a row), producing one interval `[0,3)` instead of three of lengths
3, 3, 1, and the process never reaches completion time 7.  Moreover a
completing dispatch always emits a quantum-wide interval
`[serviceTime - quantum, serviceTime)`: burst 2 with quantum 3 yields the
interval `[-1, 2)` of length 3, not `min(remaining, quantum) = 2`. -/
theorem C4_rr_single_quantum_interval :
    (RRSchedule 2 [⟨1, 0, 7, 0⟩] 3).map (fun o => o.gantt) = some [⟨1, 0, 3⟩] ∧
    (RRSchedule 2 [⟨1, 0, 2, 0⟩] 3).map (fun o => o.gantt) = some [⟨1, -1, 2⟩] := by
  decide

/-- C5 counterexample: on arrivals [0,1,2] and bursts [5,3,2] the completion
cells produced by `FCFSSchedule` are [5, 8, 10], not the [5, 9, 11] the claim
states (process 2 starts at time 5 and completes at 5 + 3 = 8). -/
theorem C5_completions_differ :
    (FCFSSchedule [⟨1, 0, 5, 0⟩, ⟨2, 1, 3, 0⟩, ⟨3, 2, 2, 0⟩]).schedule.map
      (fun r => r.getD 6 0) = [5, 8, 10] ∧
    ¬ ([(5 : Int), 8, 10] = [5, 9, 11]) := by
  decide

/-- C5 amended: FCFS on the sorted input with arrivals [0,1,2] and bursts
[5,3,2] produces waiting times [0,4,6] and completion times [5,8,10]. -/
theorem C5_fcfs_waits_completions :
    (FCFSSchedule [⟨1, 0, 5, 0⟩, ⟨2, 1, 3, 0⟩, ⟨3, 2, 2, 0⟩]).schedule.map
      (fun r => r.getD 4 0) = [0, 4, 6] ∧
    (FCFSSchedule [⟨1, 0, 5, 0⟩, ⟨2, 1, 3, 0⟩, ⟨3, 2, 2, 0⟩]).schedule.map
      (fun r => r.getD 6 0) = [5, 8, 10] := by
  decide

/-- C6: the no-mutation claim fails on the code.  `SJFSchedule` calls
`sort.Slice` on the caller's slice, so after it returns the shared slice holds
the burst-sorted order: for input [process 1 (burst 5), process 2 (burst 3)]
the caller's slice becomes [process 2, process 1], a different order than
before the call, and this is what the later `SJFPrioritySchedule` and
`RRSchedule` calls in `main` observe. -/
theorem C6_sjf_reorders_shared_slice :
    (SJFSchedule [⟨1, 0, 5, 0⟩, ⟨2, 0, 3, 0⟩]).2 = [⟨2, 0, 3, 0⟩, ⟨1, 0, 5, 0⟩] ∧
    ¬ ([(⟨2, 0, 3, 0⟩ : Process), ⟨1, 0, 5, 0⟩] = [⟨1, 0, 5, 0⟩, ⟨2, 0, 3, 0⟩]) := by
  decide

/-- C7: the interval-disjointness claim fails on the code.  For two processes
arriving at 0 with bursts 1 and priorities 1 and 2, `SJFPrioritySchedule`
emits `[0,1)` for process 1 and then — because `serviceTime` was never
advanced — `[0,1)` again for process 2: two overlapping slices of distinct
processes, so the trace violates `GanttOK`. -/
theorem C7_overlapping_intervals :
    (SJFPrioritySchedule 2 [⟨1, 0, 1, 1⟩, ⟨2, 0, 1, 2⟩]).map (fun o => o.gantt) =
      some [⟨1, 0, 1⟩, ⟨2, 0, 1⟩] ∧
    ¬ GanttOK [⟨1, 0, 1⟩, ⟨2, 0, 1⟩] := by
  decide

/-- C8 counterexample: no algorithm checks for an empty process set.  All four
return normally on zero processes; every average and throughput is a `0/0`
division (`none` here, `NaN` in Go), and no error value of any kind is
produced — the code has no `EmptyProcessSet` (its only error value is
`ErrInvalidArgs`, raised by the CLI wrapper). -/
theorem C8_no_empty_check :
    FCFSSchedule [] = ⟨[], [], none, none, none⟩ ∧
    SJFSchedule [] = (⟨[], [], none, none, none⟩, []) ∧
    SJFPrioritySchedule 0 [] = some ⟨[], [], none, none, none⟩ ∧
    RRSchedule 0 [] 10 = some ⟨[], [], none, none, none⟩ := by
  decide

/-- C8 amended: with zero processes each scheduler runs to completion and its
three summary metrics are all division-by-zero values (`none`, Go `NaN`);
no explicit failure occurs. -/
theorem C8_empty_metrics_undefined :
    (FCFSSchedule []).aveWait = none ∧ (FCFSSchedule []).aveTurnaround = none ∧
    (FCFSSchedule []).throughput = none ∧
    ((SJFSchedule []).1).aveWait = none ∧ ((SJFSchedule []).1).throughput = none ∧
    (SJFPrioritySchedule 0 []).map (fun o => o.aveWait) = some none ∧
    (SJFPrioritySchedule 0 []).map (fun o => o.throughput) = some none ∧
    (RRSchedule 0 [] 10).map (fun o => o.aveWait) = some none ∧
    (RRSchedule 0 [] 10).map (fun o => o.throughput) = some none := by
  decide

/-- C9 counterexample: `RRSchedule` performs no validation of `timeQuantum`.
Called with quantum 0 on one process of burst 7 it returns normally with
degraded output: a schedule row, a zero-length Gantt slice `[0,0)`, the
process never completing, and throughput `1/0` (`none`, Go `+Inf`) — not a
terminal `InvalidQuantum` error. -/
theorem C9_zero_quantum_returns_output :
    RRSchedule 2 [⟨1, 0, 7, 0⟩] 0 =
      some ⟨[[1, 0, 7, 0, 0, 0]], [⟨1, 0, 0⟩], some 0, some 0, none⟩ := by
  have h : rrLoop [⟨1, 0, 7, 0⟩] 0 2 (simInit [⟨1, 0, 7, 0⟩]) =
      some ⟨1, 0, 0, [0], [7], [[1, 0, 7, 0, 0, 0]], [⟨1, 0, 0⟩]⟩ := by decide
  simp [RRSchedule, h, simOutput, fdiv]

/-- C9 amended: for any `timeQuantum ≤ 0` — here the negative quantum -1 —
`RRSchedule` still returns normally, emitting a negative-length Gantt slice
`[0,-1)`, leaving the process unfinished (its remaining time even grows), with
throughput again a division by zero. -/
theorem C9_negative_quantum_degraded :
    RRSchedule 2 [⟨1, 0, 7, 0⟩] (-1) =
      some ⟨[[1, 0, 7, 0, 0, 0]], [⟨1, 0, -1⟩], some 0, some 0, none⟩ := by
  have h : rrLoop [⟨1, 0, 7, 0⟩] (-1) 2 (simInit [⟨1, 0, 7, 0⟩]) =
      some ⟨0, 0, 0, [0], [8], [[1, 0, 7, 0, 0, 0]], [⟨1, 0, -1⟩]⟩ := by decide
  simp [RRSchedule, h, simOutput, fdiv]

/-- C10: with two processes sharing `ProcessID` 1 (positive bursts), neither
`SJFPrioritySchedule` nor `RRSchedule` ever exits its loop: `containsPID`
deduplicates schedule rows by PID string, so the row count is stuck at 1 while
the loop guard demands `len(schedule) < len(processes) = 2`; for every fuel
bound the loop is still running. -/
theorem C10_duplicate_pid_nontermination :
    (∀ fuel : Nat, SJFPrioritySchedule fuel psDupSP = none) ∧
    (∀ fuel : Nat, RRSchedule fuel psDupRR 10 = none) := by
  constructor
  · intro fuel
    simp [SJFPrioritySchedule, spLoop_psDupSP_none fuel]
  · intro fuel
    simp [RRSchedule, rrLoop_psDupRR_none fuel]
